import Mathlib

/-!
Shallow embedding of the stock-demand forecasting pipeline in `src/app.py`
(functions `load_data`, `train_arima`, `load_model_for_product`,
`forecast_stock`).

Modelling conventions:
* A calendar month is a natural number `year * 12 + (month - 1)`, so that
  consecutive calendar months are consecutive naturals.
* pandas DataFrames become lists of records; the time index is the `month`
  field of each record.
* The pickle files on disk become an association list from filename to
  fitted model (`ModelStore`); `os.path.exists` becomes a lookup.
* `statsmodels` `ARIMA(...).fit()` is abstracted by `fitARIMA`: it raises
  (here: returns an error) on an empty series, and otherwise produces an
  opaque fitted state determined by the input series and the order.
* `pmdarima.auto_arima` is abstracted by a caller-supplied function
  `search`; `none` models the bare `except:` case where the stepwise
  search raises.
* Exceptions become `Except`/`Option`; the `try/except` in the Python
  functions becomes a `match` on the error case.
-/

namespace PrediksiStok

/-- Absolute month index of a calendar year-month, `y * 12 + (m - 1)`. -/
def monthOf (y m : ℕ) : ℕ := y * 12 + (m - 1)

/-- Character-level strip of every occurrence of the UTF-8 BOM artifact
rendered as the three characters `ï`, `»`, `¿`, embedding
`df.columns.str.replace("ï»¿", "")` in `load_data` (src/app.py line 20). -/
def stripBOMList : List Char → List Char
  | 'ï' :: '»' :: '¿' :: rest => stripBOMList rest
  | c :: rest => c :: stripBOMList rest
  | [] => []

/-- BOM strip applied to one column name. -/
def stripBOM (s : String) : String := ⟨stripBOMList s.data⟩

/-- Numeric value of a digit string (already validated as digits). -/
def digitsToNat (cs : List Char) : ℕ := cs.foldl (fun a c => a * 10 + (c.toNat - 48)) 0

/-- Embedding of `pd.to_datetime(col, format="%Y-%m", errors="coerce")` on a
single cell (src/app.py line 26): at most four digits of year, a dash, at
most two digits of month in 1..12, nothing else; a non-matching cell yields
`none` (NaT). The result is the absolute month index. -/
def parseYM (s : String) : Option ℕ :=
  let cs := s.data
  let yd := (cs.takeWhile Char.isDigit).take 4
  if yd.isEmpty then none else
  match cs.drop yd.length with
  | '-' :: rest =>
    let md := (rest.takeWhile Char.isDigit).take 2
    if md.isEmpty then none else
    if (rest.drop md.length).isEmpty then
      let m := digitsToNat md
      if 1 ≤ m ∧ m ≤ 12 then some (digitsToNat yd * 12 + (m - 1)) else none
    else none
  | _ => none

/-- Cell of a raw CSV row under a column name: position of the column in the
header, then that position in the row (missing cells are `none`, pandas NaN). -/
def cellOf (cols : List String) (row : List String) (c : String) : Option String :=
  (List.indexOf? c cols).bind (fun i => row.get? i)

/-- A row that survived date parsing in `load_data`: its parsed month (the
new index entry) together with the original cells. -/
structure LoadedRow where
  month : ℕ
  cells : List String
deriving DecidableEq, Repr

/-- One row of `load_data`: parse the `Tanggal` cell, keep the row only if
the date parses (`errors="coerce"` followed by `dropna`). -/
def parseRow (cols : List String) (row : List String) : Option LoadedRow :=
  match cellOf cols row "Tanggal" with
  | none => none
  | some t =>
    match parseYM t with
    | none => none
    | some mo => some ⟨mo, row⟩

/-- Embedding of `load_data` (src/app.py lines 17-34) after `pd.read_csv`
has produced a header `cols` and raw `rows`: strip the BOM artifact from
column names, fail (return `none`, the schema error path) unless the three
required columns are present, then parse dates with coercion and drop the
rows whose date failed to parse. -/
def loadData (cols : List String) (rows : List (List String)) : Option (List LoadedRow) :=
  let cols2 := cols.map stripBOM
  if "Tanggal" ∈ cols2 ∧ "Produk" ∈ cols2 ∧ "Jumlah Terjual" ∈ cols2 then
    some (rows.filterMap (parseRow cols2))
  else
    none

/-- A record of the loaded, date-indexed table used by the training and
forecasting functions: month index, product name, quantity sold. -/
structure SRecord where
  month : ℕ
  produk : String
  jumlah : ℤ
deriving DecidableEq, Repr

/-- The loaded table, `df` in the Python code. -/
abbrev Table := List SRecord

/-- Months appearing in the index of a table. -/
def monthsOf (rows : Table) : List ℕ := rows.map (fun r => r.month)

/-- First (smallest) month of the index, 0 on an empty table. -/
def loMonth : Table → ℕ
  | [] => 0
  | r :: rs => (monthsOf rs).foldl min r.month

/-- Last (largest) month of the index, 0 on an empty table. -/
def hiMonth : Table → ℕ
  | [] => 0
  | r :: rs => (monthsOf rs).foldl max r.month

/-- Total quantity sold in one month, the monthly `sum()` bucket. -/
def sumAtMonth (rows : Table) (m : ℕ) : ℤ :=
  (rows.filter (fun r => r.month = m)).foldl (fun a r => a + r.jumlah) 0

/-- Embedding of `df_produk.resample('M').sum().asfreq('M').fillna(0)`
(src/app.py line 47) applied to the rows of one product: one bucket for
every calendar month from the first to the last observed month, holding the
sum of the quantities of that month (0 when the month has no row). Empty
input gives an empty frame. -/
def resampleMonthly (rows : Table) : List (ℕ × ℤ) :=
  match rows with
  | [] => []
  | _ :: _ =>
    (List.range (hiMonth rows + 1 - loMonth rows)).map
      (fun i => (loMonth rows + i, sumAtMonth rows (loMonth rows + i)))

/-- The rows of `df` for one product, `df[df["Produk"] == produk]`. -/
def filterProduk (df : Table) (produk : String) : Table :=
  df.filter (fun r => r.produk = produk)

/-- The Series Builder of the fresh-training branch: filter to the product,
then resample to a gapless zero-filled monthly series (src/app.py 46-47). -/
def seriesBuilder (df : Table) (produk : String) : List (ℕ × ℤ) :=
  resampleMonthly (filterProduk df produk)

end PrediksiStok

deriving instance DecidableEq for Except

namespace PrediksiStok

/-- An ARIMA model order `(p, d, q)`. -/
abbrev Order := ℕ × ℕ × ℕ

/-- Abstraction of a fitted `statsmodels` ARIMA result: the fitted state is
determined by the series the fit saw and the order used. -/
structure Model where
  series : List (ℕ × ℤ)
  order : Order
deriving DecidableEq, Repr

/-- Errors a training run can surface. The code in src/app.py only ever
produces `fitFailure` (an exception escaping `ARIMA(...).fit()`);
`emptySeries` exists to state the specified dedicated empty-series error. -/
inductive TrainErr where
  | emptySeries
  | fitFailure
deriving DecidableEq, Repr

/-- Abstraction of `ARIMA(df_produk, order=(p, d, q))` + `.fit()`
(src/app.py lines 55-56): raises on an empty series (zero-size data), and
otherwise returns the fitted state for this series and order. -/
def fitARIMA (s : List (ℕ × ℤ)) (o : Order) : Except TrainErr Model :=
  if s.isEmpty then .error .fitFailure else .ok ⟨s, o⟩

/-- The second component of `train_arima`'s return value: the cached branch
returns the raw filtered rows of `df`, the fresh branch returns the
resampled monthly series. -/
inductive SeriesOut where
  | raw (rows : Table)
  | monthly (s : List (ℕ × ℤ))
deriving DecidableEq, Repr

/-- The pickle files on disk: filename to fitted model. -/
abbrev ModelStore := List (String × Model)

/-- Embedding of `os.path.exists` + `pickle.load` on the store. -/
def storeLookup (st : ModelStore) (k : String) : Option Model :=
  (st.find? (fun p => p.1 = k)).map (fun p => p.2)

/-- Embedding of `pickle.dump` to file `k`: the store now maps `k` to `m`. -/
def storeInsert (st : ModelStore) (k : String) (m : Model) : ModelStore :=
  (k, m) :: st.filter (fun p => ¬ p.1 = k)

/-- Character-level embedding of `produk.replace(' ', '_')`. -/
def replaceSpaces (s : String) : String :=
  ⟨s.data.map (fun c => if c = ' ' then '_' else c)⟩

/-- The model filename, `f"trained_arima_{produk.replace(' ', '_')}.pkl"`
(src/app.py line 38). -/
def modelKey (produk : String) : String :=
  "trained_arima_" ++ replaceSpaces produk ++ ".pkl"

/-- Embedding of `train_arima` (src/app.py lines 37-64). `store` is the
filesystem of pickle files, `search` abstracts
`auto_arima(..., seasonal=True, m=12, stepwise=True).order` (`none` = the
search raised and the bare `except:` fires). If a pickle file for the
product exists, its model is returned together with the raw filtered rows
and nothing is written. Otherwise the monthly series is built, the order
is resolved (automatic search with fallback `(1, 1, 1)`, or the manual
`(p, d, q)`), the model is fitted and written to the store. -/
def trainArima (store : ModelStore) (search : List (ℕ × ℤ) → Option Order)
    (df : Table) (produk : String) (autoChoice : Bool) (p d q : ℕ) :
    Except TrainErr (Model × SeriesOut × ModelStore) :=
  let key := modelKey produk
  match storeLookup store key with
  | some m => .ok (m, .raw (filterProduk df produk), store)
  | none =>
    let s := seriesBuilder df produk
    let o : Order :=
      if autoChoice then
        match search s with
        | some o => o
        | none => (1, 1, 1)
      else (p, d, q)
    match fitARIMA s o with
    | .ok m => .ok (m, .monthly s, storeInsert store key m)
    | .error e => .error e

/-- Largest month of the index, `df.index.max()`; `none` is NaT. -/
def maxMonthOf (df : Table) : Option ℕ :=
  match monthsOf df with
  | [] => none
  | m :: ms => some (ms.foldl max m)

/-- The body of `forecast_stock` before the `try/except` is applied
(src/app.py lines 76-79). `fc` abstracts `model_fit.forecast(steps=·)`,
returning the predicted values or the raised exception. The month targets
are the consecutive months starting right after `df.index.max()`; pandas
raises if the start is NaT or if the column lengths disagree. -/
def forecastStockBody (fc : ℕ → Except String (List ℚ)) (df : Table) (h : ℕ) :
    Except String (List (ℕ × ℚ)) :=
  match fc h with
  | .error e => .error e
  | .ok vals =>
    match maxMonthOf df with
    | none => .error "cannot build a date range from NaT"
    | some last =>
      if vals.length = h then
        .ok (((List.range h).map (fun i => last + 1 + i)).zip vals)
      else .error "column length mismatch"

/-- Embedding of `forecast_stock` (src/app.py lines 74-82): the whole body
runs under `try/except Exception`, so every error becomes a reported
message and a `None` return. -/
def forecastStock (fc : ℕ → Except String (List ℚ)) (df : Table) (h : ℕ) :
    Option (List (ℕ × ℚ)) :=
  match forecastStockBody fc df h with
  | .ok t => some t
  | .error _ => none

end PrediksiStok

namespace PrediksiStok

/-- The month targets of a forecast: the `h` consecutive months starting
right after month `M`. -/
def forecastMonths (M h : ℕ) : List ℕ := (List.range h).map (fun i => M + 1 + i)

/-- Stated from the specification's words only, for comparison with the
code: the chronological training split is the first 80% of the series
(the holdout is the remaining 20%). -/
def specTrainSplit (s : List (ℕ × ℤ)) : List (ℕ × ℤ) := s.take (s.length * 4 / 5)

/-- An order search that fits no candidate (`auto_arima` raises). -/
def noSearch : List (ℕ × ℤ) → Option Order := fun _ => none

/-- A one-row table whose last observed month is January 2024. -/
def exDf1 : Table := [⟨monthOf 2024 1, "A", 10⟩]

/-- The specification's scenario table: WidgetA sold 10 in 2023-01 and 15
in 2023-03, with no row for 2023-02. -/
def exDf2 : Table := [⟨monthOf 2023 1, "WidgetA", 10⟩, ⟨monthOf 2023 3, "WidgetA", 15⟩]

/-- Five consecutive observed months for product A. -/
def exDf7 : Table :=
  [⟨monthOf 2023 1, "A", 10⟩, ⟨monthOf 2023 2, "A", 20⟩, ⟨monthOf 2023 3, "A", 30⟩,
   ⟨monthOf 2023 4, "A", 40⟩, ⟨monthOf 2023 5, "A", 50⟩]

/-- The monthly series of `exDf7` for product A. -/
def exSeries7 : List (ℕ × ℤ) :=
  [(monthOf 2023 1, 10), (monthOf 2023 2, 20), (monthOf 2023 3, 30),
   (monthOf 2023 4, 40), (monthOf 2023 5, 50)]

/-- A previously persisted model for product A, fitted long ago on other
data. -/
def exModelOld : Model := ⟨[(monthOf 2020 1, 99)], (2, 0, 2)⟩

/-- A store in which product A already has a pickle file. -/
def exStore8 : ModelStore := [(modelKey "A", exModelOld)]

/-- The result triple of a fresh training run on `exDf7` for product A. -/
def exRes7 : Model × SeriesOut × ModelStore :=
  (⟨exSeries7, (1, 1, 1)⟩, .monthly exSeries7, [(modelKey "A", ⟨exSeries7, (1, 1, 1)⟩)])

/-- A working forecast function: `steps` predictions of value 5. -/
def exFc : ℕ → Except String (List ℚ) := fun n => .ok (List.replicate n 5)

/-- A forecast function whose underlying computation raises. -/
def exFcFail : ℕ → Except String (List ℚ) := fun _ => .error "forecast raised"

/-- The header of the specification's scenario file, with a BOM artifact on
the first column. -/
def exCols : List String := ["ï»¿Tanggal", "Produk", "Jumlah Terjual"]

/-- Scenario rows: one good date and one unparseable date. -/
def exRows : List (List String) :=
  [["2023-01", "WidgetA", "10"], ["garbage", "WidgetA", "5"]]

end PrediksiStok

namespace PrediksiStok

/-- Helper: a successful row parse keeps the original cells and records the
parsed month of the Tanggal cell. -/
theorem parseRow_spec {cols row : List String} {e : LoadedRow}
    (hp : parseRow cols row = some e) :
    e.cells = row ∧ ∃ t, cellOf cols row "Tanggal" = some t ∧ parseYM t = some e.month := by
  unfold parseRow at hp
  split at hp
  · exact Option.noConfusion hp
  · rename_i t hc
    split at hp
    · exact Option.noConfusion hp
    · rename_i mo hy
      cases hp
      exact ⟨rfl, t, hc, hy⟩

/-- C3: the Data Loader returns no table exactly when one of the columns
Tanggal, Produk, Jumlah Terjual is missing after stripping the BOM artifact
from the column names; with all three present it returns a table. -/
theorem load_data_schema_iff (cols : List String) (rows : List (List String)) :
    loadData cols rows = none ↔
      ¬ ("Tanggal" ∈ cols.map stripBOM ∧ "Produk" ∈ cols.map stripBOM ∧
        "Jumlah Terjual" ∈ cols.map stripBOM) := by
  by_cases h : ("Tanggal" ∈ cols.map stripBOM ∧ "Produk" ∈ cols.map stripBOM ∧
      "Jumlah Terjual" ∈ cols.map stripBOM)
  · simp [loadData, h]
  · simp [loadData, h]

/-- C4: on a file that passes column validation the load succeeds, every
returned row carries a successfully parsed Tanggal month, and a row whose
Tanggal does not parse never appears in the output. -/
theorem load_data_drops_unparseable (cols : List String) (rows : List (List String))
    (hc : "Tanggal" ∈ cols.map stripBOM ∧ "Produk" ∈ cols.map stripBOM ∧
      "Jumlah Terjual" ∈ cols.map stripBOM) :
    ∃ out, loadData cols rows = some out ∧
      (∀ e ∈ out, e.cells ∈ rows ∧
        ∃ t, cellOf (cols.map stripBOM) e.cells "Tanggal" = some t ∧
          parseYM t = some e.month) ∧
      (∀ row ∈ rows, parseRow (cols.map stripBOM) row = none →
        ∀ e ∈ out, e.cells ≠ row) := by
  refine ⟨rows.filterMap (parseRow (cols.map stripBOM)), by simp [loadData, hc], ?_, ?_⟩
  · intro e he
    rcases List.mem_filterMap.mp he with ⟨row, hrow, hp⟩
    rcases parseRow_spec hp with ⟨hcells, t, hcell, hym⟩
    exact ⟨hcells ▸ hrow, t, hcells ▸ hcell, hym⟩
  · intro row hrow hnone e he heq
    rcases List.mem_filterMap.mp he with ⟨row2, _, hp⟩
    rcases parseRow_spec hp with ⟨hcells, _⟩
    have h2 : row2 = row := by rw [← hcells, heq]
    rw [h2, hnone] at hp
    exact Option.noConfusion hp

/-- Witness for C4 at the scenario file: BOM on the first column, one good
date, one unparseable date. -/
theorem load_data_drops_unparseable_inst :
    ∃ out, loadData exCols exRows = some out ∧
      (∀ e ∈ out, e.cells ∈ exRows ∧
        ∃ t, cellOf (exCols.map stripBOM) e.cells "Tanggal" = some t ∧
          parseYM t = some e.month) ∧
      (∀ row ∈ exRows, parseRow (exCols.map stripBOM) row = none →
        ∀ e ∈ out, e.cells ≠ row) :=
  load_data_drops_unparseable exCols exRows (by decide)

/-- C1: when the model's forecast computation returns the requested number
of values, the Forecaster returns exactly `h` rows whose months are the
`h` consecutive months starting right after the series' last observed
month. -/
theorem forecast_horizon_months (fc : ℕ → Except String (List ℚ)) (df : Table)
    (h : ℕ) (vals : List ℚ) (M : ℕ)
    (hpos : 1 ≤ h) (hfc : fc h = .ok vals) (hlen : vals.length = h)
    (hmax : maxMonthOf df = some M) :
    forecastStock fc df h = some ((forecastMonths M h).zip vals) ∧
    ((forecastMonths M h).zip vals).length = h ∧
    ((forecastMonths M h).zip vals).map Prod.fst = forecastMonths M h := by
  have hm : (forecastMonths M h).length = h := by simp [forecastMonths]
  refine ⟨?_, ?_, ?_⟩
  · simp [forecastStock, forecastStockBody, hfc, hmax, hlen, forecastMonths]
  · rw [List.length_zip, hm, hlen, Nat.min_self]
  · exact List.map_fst_zip _ _ (by rw [hm, hlen])

/-- Witness for C1: horizon 6 on a series whose last month is 2024-01
yields the months 2024-02 through 2024-07, in order. -/
theorem forecast_horizon_months_inst :
    forecastMonths (monthOf 2024 1) 6 =
      [monthOf 2024 2, monthOf 2024 3, monthOf 2024 4, monthOf 2024 5,
        monthOf 2024 6, monthOf 2024 7] ∧
    (forecastStock exFc exDf1 6 =
        some ((forecastMonths (monthOf 2024 1) 6).zip (List.replicate 6 5)) ∧
      ((forecastMonths (monthOf 2024 1) 6).zip (List.replicate 6 5)).length = 6 ∧
      ((forecastMonths (monthOf 2024 1) 6).zip (List.replicate 6 5)).map Prod.fst =
        forecastMonths (monthOf 2024 1) 6) :=
  ⟨by decide,
    forecast_horizon_months exFc exDf1 6 (List.replicate 6 5) (monthOf 2024 1)
      (by decide) rfl (by decide) (by decide)⟩

/-- C10: `forecast_stock` is total over its error cases: an error of the
underlying forecast body yields the reported-and-`None` path, a success
yields the forecast table; nothing propagates. -/
theorem forecast_catches_all (fc : ℕ → Except String (List ℚ)) (df : Table) (h : ℕ) :
    (∀ e, forecastStockBody fc df h = .error e → forecastStock fc df h = none) ∧
    (∀ t, forecastStockBody fc df h = .ok t → forecastStock fc df h = some t) := by
  constructor
  · intro e he; simp [forecastStock, he]
  · intro t ht; simp [forecastStock, ht]

/-- Witness for C10: a raising forecast computation gives a `None` return. -/
theorem forecast_catches_all_inst : forecastStock exFcFail exDf1 12 = none :=
  (forecast_catches_all exFcFail exDf1 12).1 "forecast raised" rfl

end PrediksiStok

namespace PrediksiStok

/-- Helper: on a nonempty table the monthly resample is the bucket list
over the full month range. -/
theorem resampleMonthly_ne_nil (rows : Table) (h : rows ≠ []) :
    resampleMonthly rows =
      (List.range (hiMonth rows + 1 - loMonth rows)).map
        (fun i => (loMonth rows + i, sumAtMonth rows (loMonth rows + i))) := by
  cases rows with
  | nil => exact absurd rfl h
  | cons r rs => rfl

/-- Helper: a month with no row sums to zero. -/
theorem sumAtMonth_eq_zero {rows : Table} {m : ℕ} (h : m ∉ monthsOf rows) :
    sumAtMonth rows m = 0 := by
  have hfil : rows.filter (fun r => r.month = m) = [] := by
    rw [List.filter_eq_nil_iff]
    intro r hr hrm
    exact h (List.mem_map.mpr ⟨r, hr, by simpa using hrm⟩)
  unfold sumAtMonth
  rw [hfil]
  rfl

/-- C2: for a product with at least one row the Series Builder output lists,
in order, exactly the months from the first to the last observed month,
each exactly once; a month with no input row carries quantity zero, and in
general each month carries its monthly sum. -/
theorem series_builder_gapless (df : Table) (produk : String)
    (hne : filterProduk df produk ≠ []) :
    (seriesBuilder df produk).map Prod.fst =
      (List.range (hiMonth (filterProduk df produk) + 1 -
        loMonth (filterProduk df produk))).map
        (fun i => loMonth (filterProduk df produk) + i) ∧
    (∀ m, loMonth (filterProduk df produk) ≤ m →
      m ≤ hiMonth (filterProduk df produk) →
      ((seriesBuilder df produk).map Prod.fst).count m = 1) ∧
    (∀ m, loMonth (filterProduk df produk) ≤ m →
      m ≤ hiMonth (filterProduk df produk) →
      m ∉ monthsOf (filterProduk df produk) → (m, 0) ∈ seriesBuilder df produk) ∧
    (∀ m, loMonth (filterProduk df produk) ≤ m →
      m ≤ hiMonth (filterProduk df produk) →
      (m, sumAtMonth (filterProduk df produk) m) ∈ seriesBuilder df produk) := by
  set f := filterProduk df produk with hfdef
  set lo := loMonth f with hlodef
  set hi := hiMonth f with hhidef
  have hrs : seriesBuilder df produk =
      (List.range (hi + 1 - lo)).map (fun i => (lo + i, sumAtMonth f (lo + i))) := by
    unfold seriesBuilder
    rw [← hfdef]
    exact resampleMonthly_ne_nil f hne
  have hfst : (seriesBuilder df produk).map Prod.fst =
      (List.range (hi + 1 - lo)).map (fun i => lo + i) := by
    rw [hrs, List.map_map]
    rfl
  refine ⟨hfst, ?_, ?_, ?_⟩
  · intro m h1 h2
    have hmem : m ∈ (List.range (hi + 1 - lo)).map (fun i => lo + i) :=
      List.mem_map.mpr ⟨m - lo, List.mem_range.mpr (by omega), by omega⟩
    have hnd : ((List.range (hi + 1 - lo)).map (fun i => lo + i)).Nodup :=
      List.Nodup.map (fun a b hab => by omega) (List.nodup_range (hi + 1 - lo))
    rw [hfst]
    exact List.count_eq_one_of_mem hnd hmem
  · intro m h1 h2 habs
    rw [hrs]
    refine List.mem_map.mpr ⟨m - lo, List.mem_range.mpr (by omega), ?_⟩
    have hm : lo + (m - lo) = m := by omega
    rw [hm, sumAtMonth_eq_zero habs]
  · intro m h1 h2
    rw [hrs]
    refine List.mem_map.mpr ⟨m - lo, List.mem_range.mpr (by omega), ?_⟩
    have hm : lo + (m - lo) = m := by omega
    rw [hm]

/-- Witness for C2 at the scenario: WidgetA sells in 2023-01 and 2023-03,
so the builder inserts 2023-02 once, with quantity zero. -/
theorem series_builder_gapless_inst :
    (monthOf 2023 2 ∉ monthsOf (filterProduk exDf2 "WidgetA")) ∧
    (monthOf 2023 2, 0) ∈ seriesBuilder exDf2 "WidgetA" ∧
    ((seriesBuilder exDf2 "WidgetA").map Prod.fst).count (monthOf 2023 2) = 1 :=
  ⟨by decide,
    (series_builder_gapless exDf2 "WidgetA" (by decide)).2.2.1 (monthOf 2023 2)
      (by decide) (by decide) (by decide),
    (series_builder_gapless exDf2 "WidgetA" (by decide)).2.1 (monthOf 2023 2)
      (by decide) (by decide)⟩

end PrediksiStok

namespace PrediksiStok

/-- C5: in automatic mode, when no pickle file exists and the stepwise
order search fails to fit any candidate, the run does not propagate the
search failure: it behaves exactly as a fit with the default order
(1, 1, 1). -/
theorem auto_search_fallback (store : ModelStore) (search : List (ℕ × ℤ) → Option Order)
    (df : Table) (produk : String) (p d q : ℕ)
    (hcache : storeLookup store (modelKey produk) = none)
    (hsearch : search (seriesBuilder df produk) = none) :
    trainArima store search df produk true p d q =
      Except.map
        (fun m => (m, SeriesOut.monthly (seriesBuilder df produk),
          storeInsert store (modelKey produk) m))
        (fitARIMA (seriesBuilder df produk) (1, 1, 1)) := by
  cases hfit : fitARIMA (seriesBuilder df produk) (1, 1, 1) with
  | ok m => simp [trainArima, hcache, hsearch, hfit, Except.map, -Prod.mk_one_one]
  | error e => simp [trainArima, hcache, hsearch, hfit, Except.map, -Prod.mk_one_one]

/-- Witness for C5: a failing search on the scenario table still trains,
with order (1, 1, 1). -/
theorem auto_search_fallback_inst :
    trainArima [] noSearch exDf2 "WidgetA" true 1 1 1 =
      Except.map
        (fun m => (m, SeriesOut.monthly (seriesBuilder exDf2 "WidgetA"),
          storeInsert [] (modelKey "WidgetA") m))
        (fitARIMA (seriesBuilder exDf2 "WidgetA") (1, 1, 1)) :=
  auto_search_fallback [] noSearch exDf2 "WidgetA" 1 1 1 rfl rfl

/-- Counterexample to C6 as stated: training for a product with no rows
surfaces the generic fit failure, not a dedicated empty-series error. -/
theorem train_missing_product_cex :
    trainArima [] noSearch exDf2 "B" true 1 1 1 = .error .fitFailure ∧
    trainArima [] noSearch exDf2 "B" true 1 1 1 ≠ .error .emptySeries := by
  constructor
  · decide
  · decide

/-- C6 amended: for a product with no rows, training raises no dedicated
empty-series error: with no pickle file present the empty series reaches
the fit and the fit failure escapes; with a pickle file present the run
returns the cached model and the empty filtered rows without any error. -/
theorem train_missing_product_fit_error :
    (∀ (store : ModelStore) (search : List (ℕ × ℤ) → Option Order) (df : Table)
      (produk : String) (ac : Bool) (p d q : ℕ),
      filterProduk df produk = [] → storeLookup store (modelKey produk) = none →
      trainArima store search df produk ac p d q = .error .fitFailure) ∧
    (∀ (store : ModelStore) (search : List (ℕ × ℤ) → Option Order) (df : Table)
      (produk : String) (ac : Bool) (p d q : ℕ) (m : Model),
      filterProduk df produk = [] → storeLookup store (modelKey produk) = some m →
      trainArima store search df produk ac p d q = .ok (m, .raw [], store)) := by
  constructor
  · intro store search df produk ac p d q hrows hcache
    have hs : seriesBuilder df produk = [] := by
      unfold seriesBuilder
      rw [hrows]
      rfl
    cases ac <;> cases hsr : search [] <;>
      simp [trainArima, hcache, hs, hsr, fitARIMA]
  · intro store search df produk ac p d q m hrows hcache
    simp [trainArima, hcache, hrows]

/-- Witness for C6 amended: the one-product table has no rows for B. -/
theorem train_missing_product_fit_error_inst :
    trainArima [] noSearch exDf1 "B" true 1 1 1 = .error .fitFailure :=
  train_missing_product_fit_error.1 [] noSearch exDf1 "B" true 1 1 1 (by decide) rfl

end PrediksiStok

namespace PrediksiStok

/-- Counterexample to C7 as stated: a fresh run on five observed months
fits on all five, not on the four-month first-80% training split, and the
returned value carries no accuracy metric. -/
theorem train_no_split_cex :
    trainArima [] noSearch exDf7 "A" true 1 1 1 = .ok exRes7 ∧
    exRes7.1.series.length = 5 ∧
    (specTrainSplit exRes7.1.series).length = 4 ∧
    exRes7.1.series ≠ specTrainSplit exRes7.1.series := by
  refine ⟨by decide, by decide, by decide, by decide⟩

/-- C7 amended: every fresh training run (no pickle file) that completes
fitted the model on the entire resampled monthly series, with no
train/holdout split; no accuracy metric exists in the result. -/
theorem train_fits_entire_series :
    ∀ (store : ModelStore) (search : List (ℕ × ℤ) → Option Order) (df : Table)
      (produk : String) (ac : Bool) (p d q : ℕ) (res : Model × SeriesOut × ModelStore),
      storeLookup store (modelKey produk) = none →
      trainArima store search df produk ac p d q = .ok res →
      res.1.series = seriesBuilder df produk := by
  intro store search df produk ac p d q res hcache hok
  simp only [trainArima, hcache] at hok
  split at hok
  · rename_i m hm
    injection hok with hok2
    subst hok2
    unfold fitARIMA at hm
    split at hm
    · exact Except.noConfusion hm
    · injection hm with hm2
      subst hm2
      rfl
  · exact Except.noConfusion hok

/-- Witness for C7 amended: the completed fresh run on `exDf7` carries the
full five-month series as its fit input. -/
theorem train_fits_entire_series_inst :
    exRes7.1.series = seriesBuilder exDf7 "A" :=
  train_fits_entire_series [] noSearch exDf7 "A" true 1 1 1 exRes7 rfl (by decide)

end PrediksiStok

namespace PrediksiStok

/-- Counterexample to C8 as stated: with a pickle file already present, a
completed `train_arima` call leaves the store unchanged, still holding the
old model, which is not the model a fit of the current series produces. -/
theorem train_cached_no_overwrite_cex :
    trainArima exStore8 noSearch exDf7 "A" true 1 1 1 =
      .ok (exModelOld, .raw (filterProduk exDf7 "A"), exStore8) ∧
    storeLookup exStore8 (modelKey "A") = some exModelOld ∧
    fitARIMA (seriesBuilder exDf7 "A") (1, 1, 1) = .ok ⟨exSeries7, (1, 1, 1)⟩ ∧
    exModelOld ≠ ⟨exSeries7, (1, 1, 1)⟩ := by
  refine ⟨by decide, by decide, by decide, by decide⟩

/-- C8 amended: a training run that actually fits (no pickle file exists
for the product) writes exactly its fitted model under the key derived
from the product name; a run that finds an existing pickle file returns
the stored model and leaves the store unchanged, never overwriting. -/
theorem train_persists_only_fresh :
    (∀ (store : ModelStore) (search : List (ℕ × ℤ) → Option Order) (df : Table)
      (produk : String) (ac : Bool) (p d q : ℕ) (res : Model × SeriesOut × ModelStore),
      storeLookup store (modelKey produk) = none →
      trainArima store search df produk ac p d q = .ok res →
      res.2.2 = storeInsert store (modelKey produk) res.1 ∧
      storeLookup res.2.2 (modelKey produk) = some res.1) ∧
    (∀ (store : ModelStore) (search : List (ℕ × ℤ) → Option Order) (df : Table)
      (produk : String) (ac : Bool) (p d q : ℕ) (m : Model),
      storeLookup store (modelKey produk) = some m →
      trainArima store search df produk ac p d q =
        .ok (m, .raw (filterProduk df produk), store)) := by
  constructor
  · intro store search df produk ac p d q res hcache hok
    simp only [trainArima, hcache] at hok
    split at hok
    · rename_i m hm
      injection hok with hok2
      subst hok2
      refine ⟨rfl, ?_⟩
      simp [storeLookup, storeInsert]
    · exact Except.noConfusion hok
  · intro store search df produk ac p d q m hcache
    simp [trainArima, hcache]

/-- Witness for C8 amended: the fresh run on `exDf7` writes its model under
the product key. -/
theorem train_persists_only_fresh_inst :
    exRes7.2.2 = storeInsert [] (modelKey "A") exRes7.1 ∧
    storeLookup exRes7.2.2 (modelKey "A") = some exRes7.1 :=
  train_persists_only_fresh.1 [] noSearch exDf7 "A" true 1 1 1 exRes7 rfl (by decide)

/-- C9: the cached branch of `train_arima` returns the raw filtered rows
(no resampling, no zero-fill) while the fresh branch returns the resampled
monthly series, and on the scenario table the two series have different
lengths (2 raw rows, 3 monthly buckets). -/
theorem train_branch_shapes :
    (∀ (store : ModelStore) (search : List (ℕ × ℤ) → Option Order) (df : Table)
      (produk : String) (ac : Bool) (p d q : ℕ) (m : Model),
      storeLookup store (modelKey produk) = some m →
      trainArima store search df produk ac p d q =
        .ok (m, .raw (filterProduk df produk), store)) ∧
    (∀ (store : ModelStore) (search : List (ℕ × ℤ) → Option Order) (df : Table)
      (produk : String) (ac : Bool) (p d q : ℕ) (res : Model × SeriesOut × ModelStore),
      storeLookup store (modelKey produk) = none →
      trainArima store search df produk ac p d q = .ok res →
      res.2.1 = .monthly (seriesBuilder df produk)) ∧
    (filterProduk exDf2 "WidgetA").length = 2 ∧
    (seriesBuilder exDf2 "WidgetA").length = 3 := by
  refine ⟨?_, ?_, by decide, by decide⟩
  · intro store search df produk ac p d q m hcache
    simp [trainArima, hcache]
  · intro store search df produk ac p d q res hcache hok
    simp only [trainArima, hcache] at hok
    split at hok
    · rename_i m hm
      injection hok with hok2
      subst hok2
      rfl
    · exact Except.noConfusion hok

/-- Witness for C9: a cached run on the five-month table hands back the raw
filtered rows with the stored model. -/
theorem train_branch_shapes_inst :
    trainArima exStore8 noSearch exDf7 "A" false 2 2 2 =
      .ok (exModelOld, .raw (filterProduk exDf7 "A"), exStore8) :=
  train_branch_shapes.1 exStore8 noSearch exDf7 "A" false 2 2 2 exModelOld (by decide)

end PrediksiStok
